import Mathlib

/-
Verification of the `rustbackend` HTTP service (src/rustbackend).

The repository consists of three files:
  * src/rustbackend/src/lib.rs   — `AppState`, `create_router`, `health_check`
  * src/rustbackend/src/main.rs  — the production bootstrap (tracing init,
    state construction, a duplicate `create_router`, TCP bind on
    127.0.0.1:8000, serve)
  * src/rustbackend/tests/integration.rs — an end-to-end test

The service is built on the axum framework.  The `Axum` namespace below is a
shallow embedding of exactly the framework surface this program uses:
`Router::new`, `.route`, `routing::get`, `.layer(TraceLayer::new_for_http())`,
`.with_state`, and request dispatch.  Dispatch follows axum's documented
semantics: a request whose path matches no registered route receives the
router's default 404 fallback; a request whose path matches but whose method
has no registered handler receives the method router's default 405 fallback;
and a handler registered with the `get` combinator also serves HEAD requests
on that path, with the response body stripped on the wire.

Handlers are modelled as functions from the request to `Except String
Response`: the error branch represents the fallible-service interface of the
framework; an axum handler returning `&'static str` is infallible, so its
embedding always returns `.ok`.
-/

namespace Spec2Proof

namespace Axum

/-- HTTP request methods. -/
inductive Method where
  | GET
  | HEAD
  | POST
  | PUT
  | DELETE
  | PATCH
  | OPTIONS
  | TRACE
  | CONNECT
deriving DecidableEq, Repr

/-- An HTTP request: method, path, and otherwise-arbitrary headers and body. -/
structure Request where
  method : Method
  path : String
  headers : List (String × String)
  body : String
deriving DecidableEq, Repr

/-- An HTTP response as observed on the wire: status code and body bytes
(bodies here are UTF-8 text, so we carry them as `String`). -/
structure Response where
  status : Nat
  body : String
deriving DecidableEq, Repr

/-- The conversion axum applies to a handler returning `&'static str`:
status 200 with the string as the body. -/
def strIntoResponse (s : String) : Response :=
  { status := 200, body := s }

/-- A routed service: given the request, produce a response or fail.  The
error branch models the framework's fallible-service interface; handlers in
this program never use it. -/
def Handler : Type := Request → Except String Response

/-- The adapter axum's routing combinators apply to a zero-extractor handler
returning a static string: the request is ignored entirely and the string
becomes a 200 response. -/
def strHandler (body : String) : Handler :=
  fun _req => .ok (strIntoResponse body)

/-- A per-path method router: one optional handler slot per HTTP method.
`routing::get` fills only the GET slot. -/
structure MethodRouter where
  onGet : Option Handler := none
  onHead : Option Handler := none
  onPost : Option Handler := none
  onPut : Option Handler := none
  onDelete : Option Handler := none
  onPatch : Option Handler := none
  onOptions : Option Handler := none
  onTrace : Option Handler := none
  onConnect : Option Handler := none

/-- The handler slot a method router holds for a given method. -/
def MethodRouter.slotFor (mr : MethodRouter) : Method → Option Handler
  | .GET => mr.onGet
  | .HEAD => mr.onHead
  | .POST => mr.onPost
  | .PUT => mr.onPut
  | .DELETE => mr.onDelete
  | .PATCH => mr.onPatch
  | .OPTIONS => mr.onOptions
  | .TRACE => mr.onTrace
  | .CONNECT => mr.onConnect

/-- The default 405 Method Not Allowed fallback of an axum method router. -/
def methodNotAllowed : Response :=
  { status := 405, body := "" }

/-- The default 404 Not Found fallback of an axum router. -/
def notFound : Response :=
  { status := 404, body := "" }

/-- Dispatch a request through a method router, following axum semantics:
the slot for the request's method if filled; for HEAD requests with no HEAD
slot, the GET handler with the response body stripped on the wire; otherwise
the 405 fallback. -/
def MethodRouter.call (mr : MethodRouter) (req : Request) : Except String Response :=
  match mr.slotFor req.method with
  | some h => h req
  | none =>
    match req.method, mr.onGet with
    | .HEAD, some h => (h req).map (fun resp => { status := resp.status, body := "" })
    | _, _ => .ok methodNotAllowed

/-- The `routing::get` combinator: a method router with only the GET slot
filled.  Per axum's documentation it thereby also serves HEAD requests on
the route (see `MethodRouter.call`). -/
def get (h : Handler) : MethodRouter :=
  { onGet := some h }

/-- The `tower_http::trace::TraceLayer` value built by `new_for_http`. -/
structure TraceLayer where
  forHttp : Bool
deriving DecidableEq, Repr

/-- `TraceLayer::new_for_http()`. -/
def TraceLayer.new_for_http : TraceLayer :=
  { forHttp := true }

/-- An axum `Router<S>`: an ordered route table, whether the tracing
middleware layer has been attached, and the state handle installed by
`with_state`. -/
structure Router (S : Type) where
  routes : List (String × MethodRouter) := []
  traced : Bool := false
  state : Option S := none

/-- `Router::new()`: empty route table, no layer, no state. -/
def Router.new {S : Type} : Router S :=
  {}

/-- `Router::route(path, method_router)`: append one route table entry. -/
def Router.route {S : Type} (r : Router S) (path : String) (mr : MethodRouter) :
    Router S :=
  { r with routes := r.routes ++ [(path, mr)] }

/-- `Router::layer(TraceLayer::new_for_http())`: attach the tracing
middleware.  The layer observes requests; it does not alter responses. -/
def Router.layer {S : Type} (r : Router S) (_l : TraceLayer) : Router S :=
  { r with traced := true }

/-- `Router::with_state(state)`: install the shared state handle. -/
def Router.with_state {S : Type} (r : Router S) (s : S) : Router S :=
  { r with state := some s }

/-- One trace span recorded by the tracing middleware: method, path, and
completion status of the request it wrapped. -/
structure Span where
  method : Method
  path : String
  status : Nat
deriving DecidableEq, Repr

/-- The routing step of dispatch: find the first route table entry whose
path equals the request path and call its method router; no entry means the
404 fallback. -/
def Router.callInner {S : Type} (r : Router S) (req : Request) :
    Except String Response :=
  match r.routes.find? (fun e => e.1 == req.path) with
  | some e => e.2.call req
  | none => .ok notFound

/-- Full dispatch including the middleware: the response together with the
trace spans emitted (one per request when the trace layer is attached). -/
def Router.call {S : Type} (r : Router S) (req : Request) :
    Except String (Response × List Span) :=
  (r.callInner req).map (fun resp =>
    (resp, if r.traced then [⟨req.method, req.path, resp.status⟩] else []))

/-- The response a router produces for a request. -/
def Router.dispatch {S : Type} (r : Router S) (req : Request) :
    Except String Response :=
  (r.call req).map Prod.fst

/-- The status code of a dispatch outcome, when it produced a response. -/
def respStatus : Except String Response → Option Nat
  | .ok resp => some resp.status
  | .error _ => none

/-- The serve loop over a finite trace of inbound requests: each request is
dispatched through the router, and the loop returns the responses together
with the router as it stands afterwards (the router is read, never
written). -/
def serve {S : Type} (r : Router S) : List Request → List (Except String Response) × Router S
  | [] => ([], r)
  | req :: rest =>
    let out := serve r rest
    (r.dispatch req :: out.1, out.2)

end Axum

namespace Rustbackend

/-- `std::sync::Arc<A>`: a shared-ownership handle; dereferencing yields the
underlying value, which is all the embedding needs. -/
def Arc (A : Type) : Type := A

/-- `Arc::new`. -/
def Arc.new {A : Type} (a : A) : Arc A := a

/-- `AppState` from src/rustbackend/src/lib.rs: an empty struct, reserved
for future use (database connections, configuration, etc.). -/
structure AppState where
deriving DecidableEq, Repr

/-- `health_check` from src/rustbackend/src/lib.rs: returns the static
string it is built from; axum turns it into a 200 response. -/
def health_check : String :=
  "Hello, World!"

/-- `create_router` from src/rustbackend/src/lib.rs:
`Router::new().route("/", get(health_check)).layer(TraceLayer::new_for_http()).with_state(state)`. -/
def create_router (state : Arc AppState) : Axum.Router (Arc AppState) :=
  ((Axum.Router.new.route "/" (Axum.get (Axum.strHandler health_check))).layer
      Axum.TraceLayer.new_for_http).with_state state

end Rustbackend

namespace RustbackendBin

open Rustbackend (Arc)

/-- `AppState` from src/rustbackend/src/main.rs: the same empty struct,
declared a second time in the binary crate. -/
structure AppState where
deriving DecidableEq, Repr

/-- `health_check` from src/rustbackend/src/main.rs: identical to the
library's copy. -/
def health_check : String :=
  "Hello, World!"

/-- `create_router` from src/rustbackend/src/main.rs (lines 34-43): a
textual duplicate of the library's `create_router`. -/
def create_router (state : Arc AppState) : Axum.Router (Arc AppState) :=
  ((Axum.Router.new.route "/" (Axum.get (Axum.strHandler health_check))).layer
      Axum.TraceLayer.new_for_http).with_state state

/-- `std::net::SocketAddr`: an IPv4 address and a port.
`SocketAddr::from(([127, 0, 0, 1], 8000))` is `⟨(127, 0, 0, 1), 8000⟩`. -/
structure SocketAddr where
  ip : Nat × Nat × Nat × Nat
  port : Nat
deriving DecidableEq, Repr

/-- A bound TCP listener as handed back by `TcpListener::bind`; opaque to
the bootstrap beyond being passed to `serve`. -/
structure Listener where
  fd : Nat
deriving DecidableEq, Repr

/-- `std::env::var(name)` as used in `main`: the environment is an explicit
input, and each call records the variable name it read. -/
def envVarRead (env : String → Option String) (name : String) :
    Option String × List String :=
  (env name, [name])

/-- The state `main` has built once the bootstrap sequence has run: the log
filter installed in the tracing subscriber, the address it bound, the bound
listener, and the router handed to `serve`. -/
structure ServerRun where
  logFilter : String
  addr : SocketAddr
  listener : Listener
  app : Axum.Router (Arc AppState)

/-- Everything observable about one run of `main`'s bootstrap: which
environment variables it read, the log filter it initialized tracing with,
and its result — the running server on success, or the propagated bind
error. -/
structure BootTrace where
  envReads : List String
  logFilter : String
  result : Except String ServerRun

/-- `main` from src/rustbackend/src/main.rs, with its two effects passed as
explicit inputs: the process environment `env`, and `bind` for
`tokio::net::TcpListener::bind` (returning the listener or an I/O error,
which `main` propagates with `?`).  In source order: initialize tracing with
`EnvFilter::new(env::var("RUST_LOG").unwrap_or_else(|_| "info"))`, build the
`Arc`-wrapped state, build the router, bind `127.0.0.1:8000`, and serve.
Per axum's semantics the serve loop itself handles accept errors internally
rather than returning them, so after a successful bind the bootstrap
succeeds. -/
def main (env : String → Option String)
    (bind : SocketAddr → Except String Listener) : BootTrace :=
  let readRustLog := envVarRead env "RUST_LOG"
  let filter : String :=
    match readRustLog.1 with
    | some v => v
    | none => "info"
  let state := Arc.new AppState.mk
  let app := create_router state
  let addr : SocketAddr := ⟨(127, 0, 0, 1), 8000⟩
  let result := (bind addr).map (fun listener => ServerRun.mk filter addr listener app)
  ⟨readRustLog.2, filter, result⟩

/-- The address `main` binds: loopback 127.0.0.1, fixed port 8000. -/
def prodAddr : SocketAddr :=
  ⟨(127, 0, 0, 1), 8000⟩

end RustbackendBin

/-- The serve loop dispatches each request through the router it was given
and hands the router back unchanged. -/
theorem Axum.serve_eq {S : Type} (r : Axum.Router S) (reqs : List Axum.Request) :
    Axum.serve r reqs = (reqs.map r.dispatch, r) := by
  induction reqs with
  | nil => rfl
  | cons q qs ih => simp [Axum.serve, ih]

/-- C1: for every HTTP request with method GET and path "/", regardless of
headers or body content, the router produced by `create_router` returns a
response with status exactly 200 and body exactly "Hello, World!" (no
trailing newline). -/
theorem c1_get_root_returns_hello (state : Rustbackend.Arc Rustbackend.AppState)
    (headers : List (String × String)) (body : String) :
    (Rustbackend.create_router state).dispatch ⟨.GET, "/", headers, body⟩ =
      .ok ⟨200, "Hello, World!"⟩ := rfl

/-- C2: the health-check handler is deterministic and state-independent —
any two invocations, with arbitrary (possibly different) request content,
produce identical responses; serving the same request any number of times
yields the identical response every time, and the router state is unchanged
by serving. -/
theorem c2_handler_deterministic (state : Rustbackend.Arc Rustbackend.AppState)
    (req req' : Axum.Request) (n : Nat) :
    Axum.strHandler Rustbackend.health_check req =
        Axum.strHandler Rustbackend.health_check req' ∧
    (Axum.serve (Rustbackend.create_router state) (List.replicate n req)).1 =
        List.replicate n ((Rustbackend.create_router state).dispatch req) ∧
    (Axum.serve (Rustbackend.create_router state) (List.replicate n req)).2 =
        Rustbackend.create_router state := by
  refine ⟨rfl, ?_, ?_⟩ <;> simp [Axum.serve_eq]

/-- C3 is false as stated: the request (HEAD, "/") is a counterexample —
its (method, path) pair differs from (GET, "/"), yet the router answers it
with status 200, because the `get` combinator also serves HEAD. -/
theorem c3_counterexample :
    ¬ (∀ (state : Rustbackend.Arc Rustbackend.AppState) (req : Axum.Request),
        (req.method, req.path) ≠ (Axum.Method.GET, "/") →
        Axum.respStatus ((Rustbackend.create_router state).dispatch req) ≠
          some 200) := by
  intro h
  exact h (Rustbackend.Arc.new ⟨⟩) ⟨.HEAD, "/", [], ""⟩ (by decide) rfl

/-- C3 (amended): for every request whose (method, path) pair is neither
(GET, "/") nor (HEAD, "/"), the response status returned by the router is
not 200. -/
theorem c3_amended_non_root_not_200 (state : Rustbackend.Arc Rustbackend.AppState)
    (req : Axum.Request)
    (hg : (req.method, req.path) ≠ (Axum.Method.GET, "/"))
    (hh : (req.method, req.path) ≠ (Axum.Method.HEAD, "/")) :
    Axum.respStatus ((Rustbackend.create_router state).dispatch req) ≠ some 200 := by
  obtain ⟨m, p, hs, b⟩ := req
  simp only [ne_eq, Prod.mk.injEq, not_and] at hg hh
  by_cases hp : p = "/"
  · subst hp
    cases m <;>
      simp_all [Rustbackend.create_router, Axum.Router.new, Axum.Router.route,
        Axum.Router.layer, Axum.Router.with_state, Axum.Router.dispatch,
        Axum.Router.call, Axum.Router.callInner, Axum.MethodRouter.call,
        Axum.MethodRouter.slotFor, Axum.get, Axum.methodNotAllowed,
        Axum.respStatus, List.find?, Except.map]
  · have hbeq : (("/" : String) == p) = false := by
      cases hbe : ("/" : String) == p
      · rfl
      · exact absurd (eq_of_beq hbe) (Ne.symm hp)
    simp [Rustbackend.create_router, Axum.Router.new, Axum.Router.route,
      Axum.Router.layer, Axum.Router.with_state, Axum.Router.dispatch,
      Axum.Router.call, Axum.Router.callInner, Axum.notFound,
      Axum.respStatus, List.find?, Except.map, hbeq]

/-- C3 witness: the POST request to "/" satisfies both hypotheses and is
answered with a non-200 status. -/
theorem c3_amended_witness :
    Axum.respStatus ((Rustbackend.create_router (Rustbackend.Arc.new ⟨⟩)).dispatch
        ⟨.POST, "/", [], ""⟩) ≠ some 200 :=
  c3_amended_non_root_not_200 (Rustbackend.Arc.new ⟨⟩) ⟨.POST, "/", [], ""⟩
    (by decide) (by decide)

/-- C4: the handler and the dispatcher are total — for every shared state
handle and every request, dispatch through the router built by
`create_router` reaches no error branch: it produces an ok response. -/
theorem c4_dispatch_total (state : Rustbackend.Arc Rustbackend.AppState)
    (req : Axum.Request) :
    ∃ resp, (Rustbackend.create_router state).dispatch req = .ok resp := by
  obtain ⟨m, p, hs, b⟩ := req
  by_cases hp : p = "/"
  · subst hp
    cases m <;>
      exact ⟨_, rfl⟩
  · have hbeq : (("/" : String) == p) = false := by
      cases hbe : ("/" : String) == p
      · rfl
      · exact absurd (eq_of_beq hbe) (Ne.symm hp)
    refine ⟨Axum.notFound, ?_⟩
    simp [Rustbackend.create_router, Axum.Router.new, Axum.Router.route,
      Axum.Router.layer, Axum.Router.with_state, Axum.Router.dispatch,
      Axum.Router.call, Axum.Router.callInner, List.find?, Except.map, hbeq]

/-- C5: the route table built by `create_router` contains exactly one
entry, mapping path "/" to the `get`-registered health-check handler, and
serving any sequence of requests leaves the router unchanged. -/
theorem c5_route_table_singleton (state : Rustbackend.Arc Rustbackend.AppState)
    (reqs : List Axum.Request) :
    (Rustbackend.create_router state).routes =
        [("/", Axum.get (Axum.strHandler Rustbackend.health_check))] ∧
    (Axum.serve (Rustbackend.create_router state) reqs).2 =
        Rustbackend.create_router state :=
  ⟨rfl, by simp [Axum.serve_eq]⟩

/-- C6: the bootstrap fails exactly when binding 127.0.0.1:8000 fails, and
then it propagates the binding error; on a successful bind it runs with
that listener bound to loopback 127.0.0.1, port 8000. -/
theorem c6_bind_only_failure (env : String → Option String)
    (bind : RustbackendBin.SocketAddr → Except String RustbackendBin.Listener) :
    (∀ e, (RustbackendBin.main env bind).result = .error e ↔
        bind RustbackendBin.prodAddr = .error e) ∧
    (∀ l, bind RustbackendBin.prodAddr = .ok l →
        ∃ run, (RustbackendBin.main env bind).result = .ok run ∧
          run.addr = RustbackendBin.prodAddr ∧ run.listener = l) := by
  have key : (RustbackendBin.main env bind).result =
      (bind RustbackendBin.prodAddr).map (fun listener =>
        RustbackendBin.ServerRun.mk (RustbackendBin.main env bind).logFilter
          RustbackendBin.prodAddr listener
          (RustbackendBin.create_router (Rustbackend.Arc.new ⟨⟩))) := rfl
  constructor
  · intro e
    rw [key]
    cases hb : bind RustbackendBin.prodAddr with
    | error e' => simp [Except.map]
    | ok l => simp [Except.map]
  · intro l hl
    rw [key, hl]
    exact ⟨_, rfl, rfl, rfl⟩

/-- C6 witness: with an environment that has no variables set and a bind
that fails with "address in use", the bootstrap result is exactly that
error. -/
theorem c6_bind_only_failure_witness :
    (RustbackendBin.main (fun _ => none) (fun _ => .error "address in use")).result =
      .error "address in use" :=
  ((c6_bind_only_failure (fun _ => none) (fun _ => .error "address in use")).1
      "address in use").mpr rfl

/-- C7: the bootstrap reads exactly one environment variable, RUST_LOG; the
log filter is "info" when it is unset and the variable's value when set;
and no other environment variable influences the bootstrap at all. -/
theorem c7_env_config (env : String → Option String)
    (bind : RustbackendBin.SocketAddr → Except String RustbackendBin.Listener) :
    (RustbackendBin.main env bind).envReads = ["RUST_LOG"] ∧
    (env "RUST_LOG" = none → (RustbackendBin.main env bind).logFilter = "info") ∧
    (∀ v, env "RUST_LOG" = some v → (RustbackendBin.main env bind).logFilter = v) ∧
    (∀ env' : String → Option String, env "RUST_LOG" = env' "RUST_LOG" →
        RustbackendBin.main env bind = RustbackendBin.main env' bind) := by
  have kf : (RustbackendBin.main env bind).logFilter =
      (match env "RUST_LOG" with | some v => v | none => "info") := rfl
  refine ⟨rfl, fun hn => ?_, fun v hv => ?_, fun env' he => ?_⟩
  · rw [kf, hn]
  · rw [kf, hv]
  · simp only [RustbackendBin.main, RustbackendBin.envVarRead, he]

/-- C7 witness: with RUST_LOG unset the filter is "info", and the reads
list is exactly [RUST_LOG]. -/
theorem c7_env_config_witness :
    (RustbackendBin.main (fun _ => none) (fun _ => .ok ⟨0⟩)).logFilter = "info" ∧
    (RustbackendBin.main (fun _ => none) (fun _ => .ok ⟨0⟩)).envReads = ["RUST_LOG"] :=
  ⟨(c7_env_config (fun _ => none) (fun _ => .ok ⟨0⟩)).2.1 rfl,
    (c7_env_config (fun _ => none) (fun _ => .ok ⟨0⟩)).1⟩

/-- C9: a HEAD request to "/" is answered with status 200 and an empty
body, because the `get` combinator also serves HEAD on the registered path
with the response body stripped. -/
theorem c9_head_root_200 (state : Rustbackend.Arc Rustbackend.AppState)
    (headers : List (String × String)) (body : String) :
    (Rustbackend.create_router state).dispatch ⟨.HEAD, "/", headers, body⟩ =
      .ok ⟨200, ""⟩ := rfl

/-- C10: the router construction duplicated in the production binary is
equivalent to the library's — for every pair of state handles and every
request, the two routers produce the same response. -/
theorem c10_bin_router_equiv_lib (sLib : Rustbackend.Arc Rustbackend.AppState)
    (sBin : Rustbackend.Arc RustbackendBin.AppState) (req : Axum.Request) :
    (RustbackendBin.create_router sBin).dispatch req =
      (Rustbackend.create_router sLib).dispatch req := rfl

end Spec2Proof
